import Mathlib

/-!
Shallow embedding of `comprehensive_website_scraper.py` and `usage_example.py`
(repository `crawl_4_ai`).

Modelling conventions:
* Python strings are Lean `String` (Python slicing/length count codepoints,
  as do `String.take`/`String.length`).
* Python exceptions are modelled with `Except PyError`; a `try/except` block
  becomes a `match` on the `Except` value.
* Python truthiness of optional strings: `None` and `""` are falsy.
* JSON values are the inductive `Json`; Python dicts preserve insertion order,
  so objects are association lists.
* `json.loads` is an external library call; it is passed as a parameter
  `loads : String → Except Unit Json` (an `error` is a `json.JSONDecodeError`).
* `datetime.now()` is external; the current time is passed as a `DateTime`
  value and `strftime` for the fixed patterns used by the code is modelled.
* File-system writes are modelled as always succeeding; the file contents are
  irrelevant to the claims, only the paths and the returned dictionaries are
  tracked.
-/

/-- Python exceptions that the modelled code can raise. -/
inductive PyError where
  | keyError (key : String)
  | valueError (msg : String)
  | typeError (msg : String)
deriving DecidableEq, Repr

/-- JSON values as produced by `json.loads`; objects are ordered
association lists, numbers are restricted to integers (sufficient here). -/
inductive Json where
  | obj : List (String × Json) → Json
  | arr : List Json → Json
  | str : String → Json
  | num : Int → Json
  | bool : Bool → Json
  | null : Json

/-- Truthiness of an optional Python string: `None` and `""` are falsy. -/
def pyTruthy : Option String → Bool
  | none => false
  | some s => s ≠ ""

/-- Python `a or b` on optional strings. -/
def pyOr (a b : Option String) : Option String :=
  if pyTruthy a then a else b

/-- Python `str.strip()` with no argument: drop leading and trailing
whitespace. -/
def pyStrip (s : String) : String :=
  String.mk
    (((s.data.dropWhile Char.isWhitespace).reverse.dropWhile
      Char.isWhitespace).reverse)

/-- Python `s.startswith(p)`. -/
def strStartsWith (s p : String) : Bool := p.data.isPrefixOf s.data

/-- Python `s.endswith(p)`. -/
def strEndsWith (s p : String) : Bool := p.data.isSuffixOf s.data

/-- Python `str.split()` with no argument: the maximal runs of
non-whitespace characters, in order (no empty tokens). -/
def pySplitWs (s : String) : List String :=
  let step := fun (c : Char) (p : List Char × List (List Char)) =>
    if c.isWhitespace then
      if p.1 = [] then p else ([], p.1 :: p.2)
    else (c :: p.1, p.2)
  let r := s.data.foldr step ([], [])
  (if r.1 = [] then r.2 else r.1 :: r.2).map String.mk

/-- The repeated Python idiom `s[:n] + "..." if len(s) > n else s`. -/
def truncateWithEllipsis (n : Nat) (s : String) : String :=
  if s.length > n then s.take n ++ "..." else s

/-- Characters allowed in a URL scheme by `urllib.parse` (after the leading
letter): letters, digits, `+`, `-`, `.`. -/
def isSchemeChar (c : Char) : Bool :=
  c.isAlphanum || c = '+' || c = '-' || c = '.'

/-- `urllib.parse.urlparse`: remove a leading `scheme:` when the text before
the first colon is a valid scheme (letter first, then scheme characters). -/
def dropScheme (cs : List Char) : List Char :=
  let pre := cs.takeWhile (· ≠ ':')
  if pre.length < cs.length ∧ pre ≠ [] ∧
      (pre.headD 'a').isAlpha ∧ pre.all isSchemeChar then
    cs.drop (pre.length + 1)
  else cs

/-- `urllib.parse.urlparse(url).netloc` on characters: after the scheme, a
netloc is present only behind `//` and runs to the next `/`, `?` or `#`. -/
def netlocChars (cs : List Char) : List Char :=
  let rest := dropScheme cs
  if rest.take 2 = ['/', '/'] then
    (rest.drop 2).takeWhile (fun c => c ≠ '/' && c ≠ '?' && c ≠ '#')
  else []

/-- `urllib.parse.urlparse(url).netloc`. -/
def netloc (url : String) : String :=
  String.mk (netlocChars url.data)

/-- The constant text of `_get_extraction_prompt` before the `{url}`
interpolation point. -/
def promptPrefix : String :=
  "\n        Extract comprehensive information from this webpage and return it as a structured JSON object.\n        \n        Website: "

/-- The constant text of `_get_extraction_prompt` between the `{url}` and
`{domain}` interpolation points. -/
def promptMid : String :=
  "\n        Domain: "

/-- The constant text of `_get_extraction_prompt` after the `{domain}`
interpolation point. -/
def promptSuffix : String :=
  "\n        \n        Please extract the following information and format it as valid JSON:\n        \n        \x7b\n            \"metadata\": \x7b\n                \"url\": \"the original URL\",\n                \"title\": \"page title\",\n                \"description\": \"meta description or main page description\",\n                \"language\": \"detected language\",\n                \"last_updated\": \"if available\",\n                \"word_count\": \"approximate word count\"\n            \x7d,\n            \"content\": \x7b\n                \"main_heading\": \"main page heading\",\n                \"sub_headings\": [\"list of sub-headings\"],\n                \"main_content\": \"main text content (summarized)\",\n                \"key_points\": [\"list of key points or features\"],\n                \"call_to_actions\": [\"list of buttons, links, or CTAs\"]\n            \x7d,\n            \"navigation\": \x7b\n                \"menu_items\": [\"list of navigation menu items\"],\n                \"breadcrumbs\": [\"breadcrumb navigation if available\"],\n                \"footer_links\": [\"list of footer links\"]\n            \x7d,\n            \"media\": \x7b\n                \"images\": [\"list of image descriptions or alt texts\"],\n                \"videos\": [\"list of video titles or descriptions\"],\n                \"documents\": [\"list of downloadable documents\"]\n            \x7d,\n            \"business_info\": \x7b\n                \"company_name\": \"if available\",\n                \"contact_info\": \x7b\n                    \"email\": \"email addresses\",\n                    \"phone\": \"phone numbers\",\n                    \"address\": \"physical addresses\"\n                \x7d,\n                \"social_media\": [\"social media links\"],\n                \"pricing\": \"pricing information if available\"\n            \x7d,\n            \"technical\": \x7b\n                \"technologies\": [\"detected technologies or frameworks\"],\n                \"forms\": [\"list of forms and their purposes\"],\n                \"external_links\": [\"list of external links\"]\n            \x7d\n        \x7d\n        \n        Important:\n        - Return ONLY valid JSON, no additional text\n        - Use null for missing information\n        - Keep text concise but informative\n        - Preserve the exact structure above\n        - If information is not available, use null or empty arrays/objects\n        "

/-- `ComprehensiveWebsiteScraper._get_extraction_prompt`: the f-string with
`url` and `domain = urlparse(url).netloc` interpolated. -/
def get_extraction_prompt (url : String) : String :=
  promptPrefix ++ url ++ promptMid ++ netloc url ++ promptSuffix

/-- The content-cleaning steps at the top of `_parse_extracted_content`:
`content_str = str(...).strip()`, then the two independent fence removals
`content_str[7:]` and `content_str[:-3]`. -/
def cleanContent (s : String) : String :=
  let s1 := pyStrip s
  let s2 := if strStartsWith s1 "```json" then s1.drop 7 else s1
  let s3 := if strEndsWith s2 "```" then s2.dropRight 3 else s2
  s3

/-- The fields of the external crawler result object that the scraper reads.
`extracted_content` is `none` when absent or `None`; `html` is `none` when the
result has no `html` attribute. -/
structure CrawlResult where
  markdown : String
  links : List String
  extracted_content : Option String
  html : Option String
  chunks : Option Nat

/-- Lookup in an ordered association list (Python dict indexing). -/
def lookupField : List (String × Json) → String → Option Json
  | [], _ => none
  | (k, v) :: rest, key => if k = key then some v else lookupField rest key

/-- `d[key]` on a JSON value that is known to be an object. -/
def Json.getField? : Json → String → Option Json
  | .obj kvs, key => lookupField kvs key
  | _, _ => none

/-- Python dict assignment `d[key] = v` on an association list: replace in
place when the key exists, append otherwise. -/
def updateAssoc (kvs : List (String × Json)) (key : String) (v : Json) :
    List (String × Json) :=
  if kvs.any (fun p => p.1 = key) then
    kvs.map (fun p => if p.1 = key then (key, v) else p)
  else kvs ++ [(key, v)]

/-- Python subscript assignment `x[key] = v` for a string key: succeeds only
on dicts, raises `TypeError` on every other JSON value. -/
def Json.setField : Json → String → Json → Except PyError Json
  | .obj kvs, key, v => .ok (.obj (updateAssoc kvs key v))
  | .arr _, _, _ =>
      .error (.typeError "list indices must be integers or slices, not str")
  | .str _, _, _ =>
      .error (.typeError "'str' object does not support item assignment")
  | .num _, _, _ =>
      .error (.typeError "'int' object does not support item assignment")
  | .bool _, _, _ =>
      .error (.typeError "'bool' object does not support item assignment")
  | .null, _, _ =>
      .error (.typeError "'NoneType' object does not support item assignment")

/-- `ComprehensiveWebsiteScraper._create_simple_json_structure`. -/
def create_simple_json_structure (result : CrawlResult) (url : String) : Json :=
  let domain := netloc url
  .obj [
    ("metadata", .obj [
      ("url", .str url),
      ("title", .str ("Content from " ++ domain)),
      ("description", .str "Basic scraping result"),
      ("language", .str "unknown"),
      ("word_count", .num (pySplitWs result.markdown).length)]),
    ("content", .obj [
      ("main_content", .str (truncateWithEllipsis 1000 result.markdown)),
      ("full_content", .str result.markdown)]),
    ("links", .arr ((result.links.take 20).map .str)),
    ("scraping_method", .str "simple")]

/-- `ComprehensiveWebsiteScraper._create_fallback_structure`. -/
def create_fallback_structure (result : CrawlResult) (url : String) : Json :=
  let domain := netloc url
  .obj [
    ("metadata", .obj [
      ("url", .str url),
      ("title", .str "Extracted from markdown"),
      ("description", .str "Content extracted using fallback method"),
      ("language", .str "unknown"),
      ("last_updated", .null),
      ("word_count", .num (pySplitWs result.markdown).length)]),
    ("content", .obj [
      ("main_heading", .str ("Content from " ++ domain)),
      ("sub_headings", .arr []),
      ("main_content", .str (truncateWithEllipsis 500 result.markdown)),
      ("key_points", .arr []),
      ("call_to_actions", .arr [])]),
    ("navigation", .obj [
      ("menu_items", .arr []),
      ("breadcrumbs", .arr []),
      ("footer_links", .arr ((result.links.take 10).map .str))]),
    ("media", .obj [
      ("images", .arr []),
      ("videos", .arr []),
      ("documents", .arr [])]),
    ("business_info", .obj [
      ("company_name", .str domain),
      ("contact_info", .obj [
        ("email", .null),
        ("phone", .null),
        ("address", .null)]),
      ("social_media", .arr []),
      ("pricing", .null)]),
    ("technical", .obj [
      ("technologies", .arr []),
      ("forms", .arr []),
      ("external_links", .arr ((result.links.take 10).map .str))]),
    ("raw_markdown", .str result.markdown),
    ("extraction_method", .str "fallback")]

/-- `ComprehensiveWebsiteScraper._parse_extracted_content`; `loads` is
`json.loads` (its `error` is a `json.JSONDecodeError`, the only exception
the surrounding `try` catches — a `TypeError` from the `raw_markdown`
assignment propagates as an `Except.error`). -/
def parse_extracted_content (loads : String → Except Unit Json)
    (result : CrawlResult) (url : String) : Except PyError Json :=
  if pyTruthy result.extracted_content then
    let content_str := cleanContent (result.extracted_content.getD "")
    match loads content_str with
    | .ok parsed_data =>
        parsed_data.setField "raw_markdown"
          (.str (truncateWithEllipsis 1000 result.markdown))
    | .error _ => .ok (create_fallback_structure result url)
  else
    .ok (create_fallback_structure result url)

/-- `str(e)` for the modelled exceptions (`str` of a `KeyError` is the
repr of its key). -/
def PyError.message : PyError → String
  | .keyError k => "'" ++ k ++ "'"
  | .valueError m => m
  | .typeError m => m

/-- `type(e).__name__` for the modelled exceptions. -/
def PyError.typeName : PyError → String
  | .keyError _ => "KeyError"
  | .valueError _ => "ValueError"
  | .typeError _ => "TypeError"

/-- The `basic_info` dictionary `_process_results` always emits. -/
structure BasicInfo where
  url : String
  strategy : String
  content_length : Nat
  links_count : Nat
  scraped_at : String
deriving DecidableEq, Repr

/-- The `raw` dictionary of `_process_results` (its `metadata` entry,
`result.__dict__`, is the whole crawler object and is not tracked). -/
structure RawData where
  markdown : String
  links : List String
deriving DecidableEq, Repr

/-- The dictionary `_process_results` returns; a `none` field is an absent
key. -/
structure ProcessedData where
  basic_info : BasicInfo
  markdown : Option String
  html : Option String
  json : Option Json
  raw : Option RawData

/-- `ComprehensiveWebsiteScraper._process_results`; `now` is
`datetime.now().isoformat()`. -/
def process_results (loads : String → Except Unit Json) (now : String)
    (result : CrawlResult) (url strategy : String)
    (output_formats : List String) : Except PyError ProcessedData := do
  let basic_info : BasicInfo :=
    { url := url, strategy := strategy,
      content_length := result.markdown.length,
      links_count := result.links.length, scraped_at := now }
  let md := if output_formats.contains "markdown" then some result.markdown
            else none
  let html := if output_formats.contains "html" && result.html.isSome then
                result.html
              else none
  let j ← if output_formats.contains "json" then
            if strategy = "simple" then
              pure (some (create_simple_json_structure result url))
            else
              (parse_extracted_content loads result url).map some
          else pure none
  let raw := if output_formats.contains "raw" then
               some { markdown := result.markdown, links := result.links }
             else none
  return { basic_info := basic_info, markdown := md, html := html,
           json := j, raw := raw }

/-- The time that `datetime.now()` returns, to the resolution the code
formats. -/
structure DateTime where
  year : Nat
  month : Nat
  day : Nat
  hour : Nat
  minute : Nat
  second : Nat
deriving DecidableEq, Repr

/-- Zero-pad a number to `w` digits, as `strftime` does. -/
def padZero (w : Nat) (n : Nat) : String :=
  let s := toString n
  String.mk (List.replicate (w - s.length) '0') ++ s

/-- `datetime.now().strftime('%Y%m%d_%H%M%S')`. -/
def strftimeCompact (d : DateTime) : String :=
  padZero 4 d.year ++ padZero 2 d.month ++ padZero 2 d.day ++ "_" ++
    padZero 2 d.hour ++ padZero 2 d.minute ++ padZero 2 d.second

/-- `datetime.now().isoformat()` at whole-second resolution. -/
def isoformat (d : DateTime) : String :=
  padZero 4 d.year ++ "-" ++ padZero 2 d.month ++ "-" ++ padZero 2 d.day ++
    "T" ++ padZero 2 d.hour ++ ":" ++ padZero 2 d.minute ++ ":" ++
    padZero 2 d.second

/-- The filename sanitisation `urlparse(url).netloc.replace('.', '_')`. -/
def sanitizedDomain (url : String) : String :=
  String.mk ((netloc url).data.map (fun c => if c = '.' then '_' else c))

/-- `ComprehensiveWebsiteScraper._save_outputs`: returns the `saved_files`
dictionary as an ordered association list (file writes are modelled as
succeeding, so every attempted format is recorded). -/
def save_outputs (output_dir : String) (processed_data : ProcessedData)
    (url : String) (output_formats : List String) (now : DateTime) :
    List (String × String) :=
  let domain := sanitizedDomain url
  let timestamp := strftimeCompact now
  let base := output_dir ++ "/" ++ domain ++ "_" ++ timestamp
  (if output_formats.contains "markdown" && processed_data.markdown.isSome
   then [("markdown", base ++ ".md")] else []) ++
  (if output_formats.contains "json" && processed_data.json.isSome
   then [("json", base ++ ".json")] else []) ++
  (if output_formats.contains "html" && processed_data.html.isSome
   then [("html", base ++ ".html")] else []) ++
  (if output_formats.contains "raw" && processed_data.raw.isSome
   then [("raw", base ++ "_raw.json")] else [])

/-- The scraper object's attributes set by
`ComprehensiveWebsiteScraper.__init__`. -/
structure ScraperState where
  api_key : Option String
  base_url : Option String
  model : Option String
  output_dir : String
deriving DecidableEq, Repr

/-- `ComprehensiveWebsiteScraper.__init__`: `api_key or
os.getenv('OPENROUTER_API_KEY')`, the other two attributes straight from the
environment, and a `ValueError` when the resulting key is falsy
(`None` or `""`). `env` is `os.getenv` after `load_dotenv`. -/
def scraperInit (api_key : Option String) (env : String → Option String) :
    Except PyError ScraperState :=
  let key := pyOr api_key (env "OPENROUTER_API_KEY")
  let base_url := env "OPENROUTER_BASE_URL"
  let model := env "DEFAULT_MODEL"
  if !pyTruthy key then
    .error (.valueError
      "Please set OPENROUTER_API_KEY in config.env file or pass it to the constructor")
  else
    .ok { api_key := key, base_url := base_url, model := model,
          output_dir := "scraped_data" }

/-- The fields of the success dictionary `scrape_website` returns. -/
structure ScrapeSuccess where
  url : String
  strategy : String
  output_formats : List String
  data : ProcessedData
  saved_files : List (String × String)
  scraped_at : String
  model_used : Option String
  raw_content_length : Nat
  links_found : Nat
  chunks_processed : Nat

/-- The `error` dictionary of the failure result of `scrape_website`. Note
that the failure dictionary carries the URL only here, inside `error`, not
at top level. -/
structure ScrapeError where
  message : String
  errtype : String
  url : String
  timestamp : String
deriving DecidableEq, Repr

/-- The two dictionary shapes `scrape_website` can return: the success shape
(`success = True`) and the failure shape (`success = False`, only an `error`
entry). -/
inductive ScrapeResult where
  | ok (s : ScrapeSuccess)
  | err (e : ScrapeError)

/-- `r.get("success", False)` on a `scrape_website` result. -/
def ScrapeResult.success : ScrapeResult → Bool
  | .ok _ => true
  | .err _ => false

/-- `r["url"]` on a `scrape_website` result: the failure shape has no
top-level `url` key, so the lookup raises `KeyError`. -/
def ScrapeResult.getUrl : ScrapeResult → Except PyError String
  | .ok s => .ok s.url
  | .err _ => .error (.keyError "url")

/-- `r.get("error", {}).get("message", "Unknown error")`. -/
def ScrapeResult.errMessage : ScrapeResult → String
  | .ok _ => "Unknown error"
  | .err e => e.message

/-- `ComprehensiveWebsiteScraper.scrape_website`: strategy dispatch, the
delegated crawl, result processing and saving, all wrapped by the
`try/except Exception` that turns any raised exception into the failure
dictionary. `crawlerRun` stands for `crawler.arun` (its `Except.error` is an
exception raised inside the external crawler), `loads` for `json.loads`,
`now` for `datetime.now()`. -/
def scrape_website (st : ScraperState)
    (crawlerRun : String → Except PyError CrawlResult)
    (loads : String → Except Unit Json) (now : DateTime) (url strategy : String)
    (output_formats : List String) : ScrapeResult :=
  let attempt : Except PyError ScrapeSuccess := do
    if strategy ≠ "simple" ∧ strategy ≠ "llm" ∧ strategy ≠ "comprehensive" then
      throw (.valueError ("Unknown strategy: " ++ strategy))
    let result ← crawlerRun url
    let processed_data ← process_results loads (isoformat now) result url
      strategy output_formats
    let saved_files := save_outputs st.output_dir processed_data url
      output_formats now
    return { url := url, strategy := strategy,
             output_formats := output_formats, data := processed_data,
             saved_files := saved_files, scraped_at := isoformat now,
             model_used := if strategy ≠ "simple" then st.model
                           else some "none",
             raw_content_length := result.markdown.length,
             links_found := result.links.length,
             chunks_processed := result.chunks.getD 0 }
  match attempt with
  | .ok s => .ok s
  | .error e =>
      .err { message := e.message, errtype := e.typeName, url := url,
             timestamp := isoformat now }

/-- Python `f"{(s / t * 100):.1f}%"` modelled with exact rational
rounding to one decimal, ties to even (CPython formats the nearest binary
double, which agrees except for ties misrepresented in binary; no claim
depends on this string). -/
def formatSuccessRate (s t : Nat) : String :=
  let num := 1000 * s
  let q := num / t
  let r := num % t
  let tenths :=
    if 2 * r > t then q + 1
    else if 2 * r < t then q
    else if q % 2 = 0 then q else q + 1
  toString (tenths / 10) ++ "." ++ toString (tenths % 10) ++ "%"

/-- The dictionary `_generate_summary_report` builds (flattened: the
`summary` sub-dictionary's four entries first). -/
structure SummaryReport where
  total_websites : Nat
  successful : Nat
  failed : Nat
  success_rate : String
  successful_urls : List String
  failed_urls : List String
  errors : List String
  generated_at : String
deriving DecidableEq, Repr

/-- The list comprehension `[r["url"] for r in rs]`: the URLs in order, or
the first `KeyError` raised. -/
def collectUrls : List ScrapeResult → Except PyError (List String)
  | [] => .ok []
  | r :: rest => do
      let u ← r.getUrl
      let us ← collectUrls rest
      return u :: us

/-- `ComprehensiveWebsiteScraper._generate_summary_report`: filters the
results by the `success` flag and reads `r["url"]` of every result — which
raises `KeyError` for any failure-shaped result, since those store the URL
only inside their `error` dictionary. -/
def generate_summary_report (now : DateTime) (results : List ScrapeResult) :
    Except PyError SummaryReport := do
  let successful := results.filter (fun r => r.success)
  let failed := results.filter (fun r => !r.success)
  let successful_urls ← collectUrls successful
  let failed_urls ← collectUrls failed
  return { total_websites := results.length,
           successful := successful.length,
           failed := failed.length,
           success_rate :=
             if results.isEmpty then "0%"
             else formatSuccessRate successful.length results.length,
           successful_urls := successful_urls,
           failed_urls := failed_urls,
           errors := failed.map ScrapeResult.errMessage,
           generated_at := isoformat now }

/-- The externally visible steps of `scrape_multiple_websites`. -/
inductive BatchEvent where
  | scrapeCall (url : String)
  | sleepCall (seconds : Nat)
  | writeFile (path : String)
deriving DecidableEq, Repr

/-- The `for i, url in enumerate(urls, 1)` loop of
`scrape_multiple_websites`: scrape each URL in order, collecting results,
with `await asyncio.sleep(delay)` after every URL except the last
(`if i < len(urls)`). -/
def batchLoop (scrape : String → ScrapeResult) (delay : Nat) :
    List String → List ScrapeResult × List BatchEvent
  | [] => ([], [])
  | [u] => ([scrape u], [.scrapeCall u])
  | u :: v :: rest =>
      let (rs, es) := batchLoop scrape delay (v :: rest)
      (scrape u :: rs, .scrapeCall u :: .sleepCall delay :: es)

/-- `ComprehensiveWebsiteScraper.scrape_multiple_websites`: the batch loop,
then the summary report and its write to
`{output_dir}/scraping_summary_{timestamp}.json`. `scrape` stands for the
per-URL `await self.scrape_website(...)` (which never raises: it returns its
failure dictionary instead); an exception from the summary generation
propagates, so neither the results nor the summary file are produced
then. -/
def scrape_multiple_websites (scrape : String → ScrapeResult)
    (output_dir : String) (now : DateTime) (urls : List String) (delay : Nat) :
    Except PyError (List ScrapeResult × List BatchEvent) :=
  let (results, events) := batchLoop scrape delay urls
  match generate_summary_report now results with
  | .error e => .error e
  | .ok _ =>
      .ok (results, events ++
        [.writeFile (output_dir ++ "/scraping_summary_" ++
          strftimeCompact now ++ ".json")])

/-- The keyword parameters `ComprehensiveWebsiteScraper.__init__` accepts
(besides `self`), from its signature `def __init__(self, api_key:
Optional[str] = None)`. -/
def scraperInitParams : List String := ["api_key"]

/-- `usage_example.TARGET_URL`. -/
def TARGET_URL : String := "https://rscolman.com.ng/"

/-- `usage_example.OUTPUT_DIR`. -/
def OUTPUT_DIR : String := "scraped_data"

/-- The five task functions of `usage_example.py`, keyed as in its `tasks`
dictionary. -/
def usageTaskNames : List String :=
  ["simple", "llm", "comprehensive", "batch", "custom"]

/-- Calling a Python function with the given keyword-argument names: a
keyword that is not a parameter raises `TypeError` before the body runs. -/
def callWithKwargs (params : List String) (kwargs : List String) :
    Except PyError Unit :=
  match kwargs.find? (fun k => !params.contains k) with
  | some k =>
      .error (.typeError
        ("__init__() got an unexpected keyword argument '" ++ k ++ "'"))
  | none => .ok ()

/-- The keyword arguments each `usage_example.py` task function passes to
`ComprehensiveWebsiteScraper(...)`: every one of the five passes
`output_dir=OUTPUT_DIR` and nothing else. -/
def usageTaskInitKwargs : String → Option (List String)
  | "simple" => some ["output_dir"]
  | "llm" => some ["output_dir"]
  | "comprehensive" => some ["output_dir"]
  | "batch" => some ["output_dir"]
  | "custom" => some ["output_dir"]
  | _ => none

/-- A `usage_example.py` task function up to its first scrape: it constructs
the scraper (raising `TypeError` on a bad keyword) and only then calls
`scrape_website`/`scrape_multiple_websites` on `TARGET_URL`; the returned
event list records the scrapes reached. `none` means no such task. -/
def run_usage_task (task : String) :
    Option (Except PyError (List BatchEvent)) :=
  (usageTaskInitKwargs task).map (fun kwargs =>
    match callWithKwargs scraperInitParams kwargs with
    | .error e => .error e
    | .ok () => .ok [.scrapeCall TARGET_URL])

/-- Spec-side wording of C3: remove a leading fence exactly when the string
starts with it. -/
def spec_stripLeadFence (s : String) : String :=
  if strStartsWith s "```json" then s.drop 7 else s

/-- Spec-side wording of C3: remove a trailing fence exactly when the string
ends with it. -/
def spec_stripTrailFence (s : String) : String :=
  if strEndsWith s "```" then s.dropRight 3 else s

/-- Spec-side wording of C2 for the `json` entry: the simple structure for
the `simple` strategy, otherwise the fallback exactly when the extracted
content is absent/empty or fails to parse as JSON, and otherwise the parsed
content with a `raw_markdown` field added. -/
def spec_json_entry (loads : String → Except Unit Json) (result : CrawlResult)
    (url strategy : String) : Except PyError Json :=
  if strategy = "simple" then .ok (create_simple_json_structure result url)
  else if !pyTruthy result.extracted_content then
    .ok (create_fallback_structure result url)
  else
    match loads (cleanContent (result.extracted_content.getD "")) with
    | .error _ => .ok (create_fallback_structure result url)
    | .ok parsed =>
        parsed.setField "raw_markdown"
          (.str (truncateWithEllipsis 1000 result.markdown))

/-- Whether the key for `fmt` is present in the processed-data dictionary. -/
def hasFormatEntry (pd : ProcessedData) : String → Bool
  | "markdown" => pd.markdown.isSome
  | "json" => pd.json.isSome
  | "html" => pd.html.isSome
  | "raw" => pd.raw.isSome
  | _ => false

/-- The filename suffix `_save_outputs` uses for each format. -/
def savedFileExt : String → String
  | "markdown" => ".md"
  | "json" => ".json"
  | "html" => ".html"
  | "raw" => "_raw.json"
  | _ => ""

/-- A sample clock value for concrete runs. -/
def now0 : DateTime := ⟨2025, 1, 2, 3, 4, 5⟩

/-- A sample scraper state (a configured scraper object). -/
def st0 : ScraperState :=
  { api_key := some "k", base_url := some "https://openrouter.ai/api/v1",
    model := some "m", output_dir := "scraped_data" }

/-- A sample crawler result with no extracted content. -/
def crawlResPlain : CrawlResult :=
  { markdown := "hello world", links := ["https://a.example/x"],
    extracted_content := none, html := none, chunks := none }

/-- A sample crawler result whose extracted content is a JSON array. -/
def crawlResArray : CrawlResult :=
  { markdown := "hello world", links := [],
    extracted_content := some "```json[1, 2]```", html := none,
    chunks := none }

/-- A `json.loads` that rejects everything (always `JSONDecodeError`). -/
def loadsFail : String → Except Unit Json := fun _ => .error ()

/-- A `json.loads` that parses `[1, 2]` and rejects everything else. -/
def loadsArray : String → Except Unit Json := fun s =>
  if s = "[1, 2]" then .ok (.arr [.num 1, .num 2]) else .error ()

/-- An environment with no variables set. -/
def envEmpty : String → Option String := fun _ => none

/-- An environment with only `OPENROUTER_API_KEY` set. -/
def envKeyOnly : String → Option String := fun name =>
  if name = "OPENROUTER_API_KEY" then some "envkey" else none

/-- A crawler whose `arun` always raises (for example a connection error). -/
def crawlRunFail : String → Except PyError CrawlResult := fun _ =>
  .error (.valueError "Connection refused")

/-- A crawler whose `arun` always returns `crawlResPlain`. -/
def crawlRunPlain : String → Except PyError CrawlResult := fun _ =>
  .ok crawlResPlain

/-- A per-URL scrape as `scrape_multiple_websites` performs it, with the
always-failing crawler: every URL yields the failure dictionary. -/
def scrapeFailFn : String → ScrapeResult := fun u =>
  scrape_website st0 crawlRunFail loadsFail now0 u "comprehensive"
    ["markdown", "json"]

/-- A per-URL scrape with the healthy crawler and the `simple` strategy:
every URL yields the success dictionary. -/
def scrapeOkFn : String → ScrapeResult := fun u =>
  scrape_website st0 crawlRunPlain loadsFail now0 u "simple"
    ["markdown", "json"]

/-- A second `json.loads`: agrees with `loadsArray` on `[1, 2]` but not
elsewhere. -/
def loadsArrayAlt : String → Except Unit Json := fun s =>
  if s = "[1, 2]" then .ok (.arr [.num 1, .num 2]) else .ok .null

/-- The processed data that `_process_results` returns for `crawlResPlain`
with the `comprehensive` strategy and only the `json` format requested. -/
def pd0 : ProcessedData :=
  { basic_info := { url := "https://a.example", strategy := "comprehensive",
                    content_length := 11, links_count := 1,
                    scraped_at := "t" },
    markdown := none, html := none,
    json := some (create_fallback_structure crawlResPlain "https://a.example"),
    raw := none }

/-- A crawler whose `arun` always returns `crawlResArray`. -/
def crawlRunArray : String → Except PyError CrawlResult := fun _ =>
  .ok crawlResArray

/-- Claim C3: `_parse_extracted_content` first strips surrounding whitespace,
then removes a leading fence exactly when the string starts with it and a
trailing fence exactly when the string ends with it, each independently of the
other; JSON parsing is attempted exactly on the cleaned string, so the result
depends on `json.loads` only through its value there. -/
theorem parse_cleans_before_loading (s : String)
    (loadsA loadsB : String → Except Unit Json) (result : CrawlResult)
    (url : String) (ht : pyTruthy result.extracted_content = true)
    (heq : loadsA (cleanContent (result.extracted_content.getD "")) =
           loadsB (cleanContent (result.extracted_content.getD ""))) :
    cleanContent s = spec_stripTrailFence (spec_stripLeadFence (pyStrip s)) ∧
    parse_extracted_content loadsA result url =
      parse_extracted_content loadsB result url := by
  constructor
  · rfl
  · unfold parse_extracted_content
    simp only [ht, if_true]
    rw [heq]

theorem parse_cleans_before_loading_witness :
    (pyTruthy crawlResArray.extracted_content = true ∧
      loadsArray (cleanContent (crawlResArray.extracted_content.getD "")) =
        loadsArrayAlt (cleanContent (crawlResArray.extracted_content.getD ""))) ∧
    (cleanContent " ```json[1, 2]``` " =
        spec_stripTrailFence
          (spec_stripLeadFence (pyStrip " ```json[1, 2]``` ")) ∧
      parse_extracted_content loadsArray crawlResArray "https://a.example" =
        parse_extracted_content loadsArrayAlt crawlResArray
          "https://a.example") :=
  ⟨⟨by rfl, by rfl⟩,
   parse_cleans_before_loading " ```json[1, 2]``` " loadsArray loadsArrayAlt
     crawlResArray "https://a.example" (by rfl) (by rfl)⟩

/-- Claim C4: `_get_extraction_prompt url` is the fixed template with exactly
the URL and its domain (the netloc of the parsed URL) interpolated, nothing
else depending on the input. -/
theorem prompt_is_fixed_template (url : String) :
    get_extraction_prompt url =
      promptPrefix ++ url ++ promptMid ++ netloc url ++ promptSuffix ∧
    (get_extraction_prompt url).length =
      promptPrefix.length + url.length + promptMid.length +
        (netloc url).length + promptSuffix.length := by
  refine ⟨rfl, ?_⟩
  simp [get_extraction_prompt, String.length_append, Nat.add_assoc]

/-- Claim C8: every task function of `usage_example.py` passes the keyword
`output_dir` that the constructor does not accept, so it raises `TypeError`
at construction, before any scraping. -/
theorem usage_tasks_raise_typeerror (t : String) (ht : t ∈ usageTaskNames) :
    run_usage_task t =
      some (.error (.typeError
        "__init__() got an unexpected keyword argument 'output_dir'")) := by
  fin_cases ht <;> rfl

theorem usage_tasks_raise_typeerror_witness :
    "llm" ∈ usageTaskNames ∧
    run_usage_task "llm" =
      some (.error (.typeError
        "__init__() got an unexpected keyword argument 'output_dir'")) :=
  ⟨by decide, usage_tasks_raise_typeerror "llm" (by decide)⟩

/-- Claim C10: the simple structure carries at most the first 20 links and
truncates `main_content` at 1000 characters with an ellipsis appended; the
fallback carries at most the first 10 links in each of `footer_links` and
`external_links` and truncates `main_content` at 500; both report
`word_count` as the number of whitespace-separated tokens of the full
markdown. -/
theorem structure_link_and_truncation_limits (r : CrawlResult) (url : String) :
    ((create_simple_json_structure r url).getField? "links" =
      some (.arr ((r.links.take 20).map Json.str))) ∧
    (r.links.take 20).length ≤ 20 ∧
    (((create_simple_json_structure r url).getField? "content").bind
        (fun j => j.getField? "main_content") =
      some (.str (if r.markdown.length > 1000
                  then r.markdown.take 1000 ++ "..." else r.markdown))) ∧
    (((create_simple_json_structure r url).getField? "metadata").bind
        (fun j => j.getField? "word_count") =
      some (.num (pySplitWs r.markdown).length)) ∧
    (((create_fallback_structure r url).getField? "navigation").bind
        (fun j => j.getField? "footer_links") =
      some (.arr ((r.links.take 10).map Json.str))) ∧
    (((create_fallback_structure r url).getField? "technical").bind
        (fun j => j.getField? "external_links") =
      some (.arr ((r.links.take 10).map Json.str))) ∧
    (r.links.take 10).length ≤ 10 ∧
    (((create_fallback_structure r url).getField? "content").bind
        (fun j => j.getField? "main_content") =
      some (.str (if r.markdown.length > 500
                  then r.markdown.take 500 ++ "..." else r.markdown))) ∧
    (((create_fallback_structure r url).getField? "metadata").bind
        (fun j => j.getField? "word_count") =
      some (.num (pySplitWs r.markdown).length)) :=
  ⟨rfl, List.length_take_le 20 _, rfl, rfl, rfl, rfl, List.length_take_le 10 _,
   rfl, rfl⟩

/-- Claim C5: `_save_outputs` writes exactly the requested-and-present
formats, to `{output_dir}/{domain}_{timestamp}{ext}` with the sanitized
domain (netloc, dots to underscores), the `%Y%m%d_%H%M%S` timestamp and
`_raw.json` for the raw format, and the returned dictionary maps exactly
those formats to those paths. -/
theorem save_outputs_exact_formats (output_dir : String) (pd : ProcessedData)
    (url : String) (formats : List String) (now : DateTime) :
    save_outputs output_dir pd url formats now =
      (["markdown", "json", "html", "raw"].filter
        (fun f => formats.contains f && hasFormatEntry pd f)).map
        (fun f => (f, output_dir ++ "/" ++ sanitizedDomain url ++ "_" ++
          strftimeCompact now ++ savedFileExt f)) := by
  by_cases h1 : "markdown" ∈ formats ∧ pd.markdown.isSome = true <;>
  by_cases h2 : "json" ∈ formats ∧ pd.json.isSome = true <;>
  by_cases h3 : "html" ∈ formats ∧ pd.html.isSome = true <;>
  by_cases h4 : "raw" ∈ formats ∧ pd.raw.isSome = true <;>
    simp [save_outputs, hasFormatEntry, savedFileExt, List.filter_cons,
      List.elem_eq_mem, h1, h2, h3, h4]

/-- Claim C6: the constructor takes the key from the `api_key` argument when
that is truthy, else from `OPENROUTER_API_KEY`; it reads `base_url` and
`model` from `OPENROUTER_BASE_URL` and `DEFAULT_MODEL`; and it raises
`ValueError` exactly when neither source provides a (truthy) key. -/
theorem init_key_from_env (api_key : Option String)
    (env : String → Option String) :
    ((∃ m, scraperInit api_key env = .error (.valueError m)) ↔
      (pyTruthy api_key = false ∧
       pyTruthy (env "OPENROUTER_API_KEY") = false)) ∧
    (pyTruthy api_key = true →
      scraperInit api_key env =
        .ok { api_key := api_key, base_url := env "OPENROUTER_BASE_URL",
              model := env "DEFAULT_MODEL", output_dir := "scraped_data" }) ∧
    (pyTruthy api_key = false → pyTruthy (env "OPENROUTER_API_KEY") = true →
      scraperInit api_key env =
        .ok { api_key := env "OPENROUTER_API_KEY",
              base_url := env "OPENROUTER_BASE_URL",
              model := env "DEFAULT_MODEL", output_dir := "scraped_data" }) := by
  unfold scraperInit pyOr
  cases h1 : pyTruthy api_key <;>
    cases h2 : pyTruthy (env "OPENROUTER_API_KEY") <;>
      simp [h1, h2]

theorem init_key_from_env_witness :
    (pyTruthy (some "k") = true ∧
      scraperInit (some "k") envKeyOnly =
        .ok { api_key := some "k", base_url := none, model := none,
              output_dir := "scraped_data" }) ∧
    (pyTruthy (none : Option String) = false ∧
      pyTruthy (envKeyOnly "OPENROUTER_API_KEY") = true ∧
      scraperInit none envKeyOnly =
        .ok { api_key := some "envkey", base_url := none, model := none,
              output_dir := "scraped_data" }) :=
  ⟨⟨by decide, (init_key_from_env (some "k") envKeyOnly).2.1 (by decide)⟩,
   ⟨by decide, by decide,
    (init_key_from_env none envKeyOnly).2.2 (by decide) (by decide)⟩⟩

lemma spec_json_entry_eq_parse (loads : String → Except Unit Json)
    (result : CrawlResult) (url strategy : String) (hs : strategy ≠ "simple") :
    spec_json_entry loads result url strategy =
      parse_extracted_content loads result url := by
  unfold spec_json_entry parse_extracted_content
  rw [if_neg hs]
  cases hpt : pyTruthy result.extracted_content
  · simp [hpt]
  · cases hl : loads (cleanContent (result.extracted_content.getD "")) <;>
      simp [hpt, hl]

lemma setField_ok_iff {p : Json} {k : String} {v j : Json} :
    p.setField k v = .ok j ↔
      ∃ kvs, p = .obj kvs ∧ j = .obj (updateAssoc kvs k v) := by
  cases p <;> simp [Json.setField]
  exact eq_comm

lemma parse_ok_cases (loads : String → Except Unit Json) (result : CrawlResult)
    (url : String) (j : Json)
    (h : parse_extracted_content loads result url = .ok j) :
    j = create_fallback_structure result url ∨
    ∃ kvs,
      loads (cleanContent (result.extracted_content.getD "")) =
        .ok (.obj kvs) ∧
      j = .obj (updateAssoc kvs "raw_markdown"
        (.str (truncateWithEllipsis 1000 result.markdown))) := by
  unfold parse_extracted_content at h
  cases hpt : pyTruthy result.extracted_content
  · simp [hpt] at h
    exact Or.inl h.symm
  · simp only [hpt, if_true] at h
    cases hl : loads (cleanContent (result.extracted_content.getD "")) with
    | error e =>
        rw [hl] at h
        simp at h
        exact Or.inl h.symm
    | ok parsed =>
        rw [hl] at h
        simp at h
        obtain ⟨kvs, hp, hj⟩ := setField_ok_iff.mp h
        subst hp
        exact Or.inr ⟨kvs, rfl, hj⟩

/-- Claim C2: whenever `_process_results` returns with `json` among the
output formats, the `json` entry is the simple structure (for the `simple`
strategy), and otherwise either the parsed extracted content with a
`raw_markdown` field added or the fallback structure; the branch follows the
spec-side `spec_json_entry` exactly, whose fallback fires precisely when the
extracted content is absent/empty or fails to parse. -/
theorem json_entry_shapes (loads : String → Except Unit Json) (now : String)
    (result : CrawlResult) (url strategy : String) (formats : List String)
    (hj : formats.contains "json" = true) (pd : ProcessedData)
    (hpd : process_results loads now result url strategy formats = .ok pd) :
    (∃ j, pd.json = some j ∧
      spec_json_entry loads result url strategy = .ok j) ∧
    (∀ j, pd.json = some j →
      j = create_simple_json_structure result url ∨
      j = create_fallback_structure result url ∨
      ∃ kvs,
        loads (cleanContent (result.extracted_content.getD "")) =
          .ok (.obj kvs) ∧
        j = .obj (updateAssoc kvs "raw_markdown"
          (.str (truncateWithEllipsis 1000 result.markdown)))) := by
  unfold process_results at hpd
  simp only [hj, if_true] at hpd
  by_cases hs : strategy = "simple"
  · simp only [hs, reduceIte, pure_bind, pure, Except.pure] at hpd
    injection hpd with h
    subst h
    refine ⟨⟨create_simple_json_structure result url, rfl, ?_⟩, ?_⟩
    · simp [spec_json_entry, hs]
    · intro j hjj
      injection hjj with h2
      exact Or.inl h2.symm
  · simp only [hs, reduceIte] at hpd
    cases hp : parse_extracted_content loads result url with
    | error e =>
        rw [hp] at hpd
        simp [Except.map] at hpd
    | ok j0 =>
        rw [hp] at hpd
        simp only [Except.map, pure_bind, pure, Except.pure] at hpd
        injection hpd with h
        subst h
        refine ⟨⟨j0, rfl, ?_⟩, ?_⟩
        · rw [spec_json_entry_eq_parse loads result url strategy hs, hp]
        · intro j hjj
          injection hjj with h2
          subst h2
          rcases parse_ok_cases loads result url j0 hp with hfb | ⟨kvs, hl, hje⟩
          · exact Or.inr (Or.inl hfb)
          · exact Or.inr (Or.inr ⟨kvs, hl, hje⟩)

theorem json_entry_shapes_witness :
    ((["json"] : List String).contains "json" = true ∧
      process_results loadsFail "t" crawlResPlain "https://a.example"
        "comprehensive" ["json"] = .ok pd0) ∧
    ((∃ j, pd0.json = some j ∧
        spec_json_entry loadsFail crawlResPlain "https://a.example"
          "comprehensive" = .ok j) ∧
      (∀ j, pd0.json = some j →
        j = create_simple_json_structure crawlResPlain "https://a.example" ∨
        j = create_fallback_structure crawlResPlain "https://a.example" ∨
        ∃ kvs,
          loadsFail (cleanContent
            (crawlResPlain.extracted_content.getD "")) = .ok (.obj kvs) ∧
          j = .obj (updateAssoc kvs "raw_markdown"
            (.str (truncateWithEllipsis 1000 crawlResPlain.markdown))))) :=
  ⟨⟨rfl, rfl⟩,
   json_entry_shapes loadsFail "t" crawlResPlain "https://a.example"
     "comprehensive" ["json"] rfl pd0 rfl⟩

lemma parse_error_of_nonobject (loads : String → Except Unit Json)
    (result : CrawlResult) (url : String)
    (ht : pyTruthy result.extracted_content = true) (j : Json)
    (hload : loads (cleanContent (result.extracted_content.getD "")) = .ok j)
    (hnotobj : ∀ kvs, j ≠ .obj kvs) :
    ∃ m, parse_extracted_content loads result url =
      .error (.typeError m) := by
  have hset : ∃ m, j.setField "raw_markdown"
      (.str (truncateWithEllipsis 1000 result.markdown)) =
        .error (.typeError m) := by
    cases j with
    | obj kvs => exact absurd rfl (hnotobj kvs)
    | arr l => exact ⟨_, rfl⟩
    | str s => exact ⟨_, rfl⟩
    | num n => exact ⟨_, rfl⟩
    | bool b => exact ⟨_, rfl⟩
    | null => exact ⟨_, rfl⟩
  obtain ⟨m, hm⟩ := hset
  refine ⟨m, ?_⟩
  unfold parse_extracted_content
  simp only [ht, if_true]
  rw [hload]
  exact hm

/-- Claim C9: when the extracted content parses as JSON whose top-level value
is not an object, `_parse_extracted_content` does not fall back — the
`raw_markdown` assignment raises `TypeError` — and `scrape_website`'s outer
handler turns that into the failure dictionary (`success = False`, an error
dictionary with type `TypeError`). -/
theorem nonobject_content_raises (st : ScraperState)
    (crawlerRun : String → Except PyError CrawlResult)
    (loads : String → Except Unit Json) (now : DateTime)
    (url strategy : String) (formats : List String) (result : CrawlResult)
    (hstrat : strategy = "llm" ∨ strategy = "comprehensive")
    (hrun : crawlerRun url = .ok result)
    (hj : formats.contains "json" = true)
    (ht : pyTruthy result.extracted_content = true) (j : Json)
    (hload : loads (cleanContent (result.extracted_content.getD "")) = .ok j)
    (hnotobj : ∀ kvs, j ≠ .obj kvs) :
    ∃ m, parse_extracted_content loads result url = .error (.typeError m) ∧
      scrape_website st crawlerRun loads now url strategy formats =
        .err { message := m, errtype := "TypeError", url := url,
               timestamp := isoformat now } := by
  obtain ⟨m, hm⟩ := parse_error_of_nonobject loads result url ht j hload hnotobj
  have hs1 : strategy ≠ "simple" := by
    rcases hstrat with h | h <;> simp [h]
  have hproc : process_results loads (isoformat now) result url strategy
      formats = .error (.typeError m) := by
    unfold process_results
    simp only [hj, if_true, hs1, reduceIte]
    rw [hm]
    rfl
  refine ⟨m, hm, ?_⟩
  unfold scrape_website
  rcases hstrat with h | h <;> subst h <;>
    simp [hrun, hproc, bind, Except.bind, Functor.map, Except.map,
      pure, Except.pure, PyError.message, PyError.typeName]

theorem nonobject_content_raises_witness :
    (("llm" = "llm" ∨ "llm" = "comprehensive") ∧
      crawlRunArray "https://a.example" = .ok crawlResArray ∧
      (["json"] : List String).contains "json" = true ∧
      pyTruthy crawlResArray.extracted_content = true ∧
      loadsArray (cleanContent (crawlResArray.extracted_content.getD "")) =
        .ok (.arr [.num 1, .num 2]) ∧
      (∀ kvs, Json.arr [.num 1, .num 2] ≠ .obj kvs)) ∧
    (∃ m, parse_extracted_content loadsArray crawlResArray
        "https://a.example" = .error (.typeError m) ∧
      scrape_website st0 crawlRunArray loadsArray now0 "https://a.example"
        "llm" ["json"] =
        .err { message := m, errtype := "TypeError",
               url := "https://a.example", timestamp := isoformat now0 }) :=
  ⟨⟨Or.inl rfl, rfl, rfl, rfl, rfl, fun _ h => Json.noConfusion h⟩,
   nonobject_content_raises st0 crawlRunArray loadsArray now0
     "https://a.example" "llm" ["json"] crawlResArray (Or.inl rfl) rfl rfl rfl
     (.arr [.num 1, .num 2]) rfl (fun _ h => Json.noConfusion h)⟩

lemma batchLoop_eq (scrape : String → ScrapeResult) (delay : Nat) :
    ∀ urls : List String,
      batchLoop scrape delay urls =
        (urls.map scrape,
         (urls.map BatchEvent.scrapeCall).intersperse (.sleepCall delay)) := by
  intro urls
  induction urls with
  | nil => rfl
  | cons u rest ih =>
      cases rest with
      | nil => rfl
      | cons v rest2 =>
          simp only [batchLoop, ih, List.map_cons, List.intersperse]

lemma collectUrls_ok_of_success (l : List ScrapeResult)
    (h : ∀ r ∈ l, r.success = true) :
    ∃ us, collectUrls l = .ok us := by
  induction l with
  | nil => exact ⟨[], rfl⟩
  | cons r rest ih =>
      obtain ⟨us, hus⟩ := ih (fun x hx => h x (List.mem_cons_of_mem _ hx))
      have hr := h r (List.mem_cons_self _ _)
      cases r with
      | err e => simp [ScrapeResult.success] at hr
      | ok s =>
          exact ⟨s.url :: us,
            by simp [collectUrls, ScrapeResult.getUrl, hus, bind, Except.bind,
              pure, Except.pure]⟩

lemma summary_ok_of_success (now : DateTime) (results : List ScrapeResult)
    (h : ∀ r ∈ results, r.success = true) :
    ∃ rep, generate_summary_report now results = .ok rep := by
  have hsucc : results.filter (fun r => r.success) = results :=
    List.filter_eq_self.mpr (fun a ha => h a ha)
  have hfail : results.filter (fun r => !r.success) = [] := by
    rw [List.filter_eq_nil_iff]
    intro a ha
    simp [h a ha]
  obtain ⟨us, hus⟩ := collectUrls_ok_of_success results h
  unfold generate_summary_report
  rw [hsucc, hfail]
  simp only [hus, collectUrls, bind, Except.bind, pure, Except.pure]
  exact ⟨_, rfl⟩

/-- Claim C1 as amended: for every non-empty URL list whose scrapes all
succeed, `scrape_multiple_websites` scrapes the URLs in input order, returns
exactly one result per URL in the same order, sleeps `delay` seconds between
consecutive URLs but not after the last, and then writes the summary file.
(When some scrape fails, the summary generation raises `KeyError` instead —
see the counterexample — because failure results carry no top-level
`url`.) -/
theorem batch_sequential_amended (scrape : String → ScrapeResult)
    (output_dir : String) (now : DateTime) (urls : List String) (delay : Nat)
    (hne : urls ≠ [])
    (hok : ∀ u ∈ urls, (scrape u).success = true) :
    scrape_multiple_websites scrape output_dir now urls delay =
      .ok (urls.map scrape,
        (urls.map BatchEvent.scrapeCall).intersperse (.sleepCall delay) ++
          [.writeFile (output_dir ++ "/scraping_summary_" ++
            strftimeCompact now ++ ".json")]) := by
  unfold scrape_multiple_websites
  rw [batchLoop_eq]
  have hall : ∀ r ∈ urls.map scrape, r.success = true := by
    intro r hr
    obtain ⟨u, hu, rfl⟩ := List.mem_map.mp hr
    exact hok u hu
  obtain ⟨rep, hrep⟩ := summary_ok_of_success now (urls.map scrape) hall
  simp only [hrep]

/-- Claim C1 as stated fails: with a crawler that raises for every URL, a
batch over a non-empty URL list neither returns one result per URL nor
writes a summary — the run aborts with `KeyError` while generating the
summary. -/
theorem batch_sequential_counterexample :
    scrape_multiple_websites scrapeFailFn "scraped_data" now0
        ["https://a.example", "https://b.example"] 2 =
      .error (.keyError "url") := by rfl

theorem batch_sequential_amended_witness :
    ((["https://a.example"] : List String) ≠ [] ∧
      (∀ u ∈ (["https://a.example"] : List String),
        (scrapeOkFn u).success = true)) ∧
    scrape_multiple_websites scrapeOkFn "scraped_data" now0
        ["https://a.example"] 2 =
      .ok (["https://a.example"].map scrapeOkFn,
        ((["https://a.example"].map BatchEvent.scrapeCall).intersperse
            (.sleepCall 2)) ++
          [.writeFile ("scraped_data" ++ "/scraping_summary_" ++
            strftimeCompact now0 ++ ".json")]) :=
  ⟨⟨by decide, by decide⟩,
   batch_sequential_amended scrapeOkFn "scraped_data" now0
     ["https://a.example"] 2 (by decide) (by decide)⟩

/-- Claim C7: the failure dictionary of `scrape_website` stores the URL only
inside its `error` entry, so `_generate_summary_report` raises
`KeyError` on `r["url"]` for any failed result instead of producing the
claimed summary. -/
theorem summary_keyerror_on_failure :
    scrapeFailFn "https://example.com" =
      .err { message := "Connection refused", errtype := "ValueError",
             url := "https://example.com",
             timestamp := "2025-01-02T03:04:05" } ∧
    generate_summary_report now0 [scrapeFailFn "https://example.com"] =
      .error (.keyError "url") := ⟨rfl, rfl⟩
